import Mathlib

/-!
# Title-screen menu window (`src/openrct2-ui/windows/TitleMenu.cpp`)

A shallow embedding of the title menu window: the static widget table, the
constructor `window_title_menu_open`, and the handlers
`window_title_menu_mouseup`, `window_title_menu_dropdown` and
`window_title_menu_invalidate`.

Conventions of the embedding.

* Coordinates (`int16_t` widget edges, `int32_t` screen coordinates) are `Int`.
  Signed overflow is undefined behaviour in C++, so the embedding describes the
  executions that are free of it; in the constructor every computed value lies
  in `[0, 328]` (see `packWidgets_cursor_bounds`).
* `enabled_widgets` (`uint64_t`) is a `Nat` bitmask.
* The statics `window_title_menu_widgets` and `_filterRect` are explicit state.
  `rct_window::widgets` points at the static table, so the table is carried in
  the window record.
* Calls into the host (window manager, editor, UI context) are recorded as a
  list of `WindowCall`s or `ToolCall`s in program order.
* Window fields that no handler of this file reads back (colours, flags, the
  event table, the window class) are not represented.
-/

namespace TitleMenu

/-! ## Data model -/

/-- The anonymous widget-index enum at the top of the file. -/
def WIDX_START_NEW_GAME : Nat := 0
/-- Second enumerator. -/
def WIDX_CONTINUE_SAVED_GAME : Nat := 1
/-- Third enumerator. -/
def WIDX_MULTIPLAYER : Nat := 2
/-- Fourth enumerator. -/
def WIDX_GAME_TOOLS : Nat := 3
/-- Fifth enumerator: the update banner. -/
def WIDX_NEW_VERSION : Nat := 4

/-- The widget kinds used by this file (`WindowWidgetType`); `Last` is the kind
of the `WIDGETS_END` terminator. -/
inductive WindowWidgetType
  | Empty
  | ImgBtn
  | Button
  | Last
  deriving DecidableEq, Repr

/-- The window colour slots named in the widget table. -/
inductive WindowColour
  | Primary
  | Secondary
  | Tertiary
  deriving DecidableEq, Repr

/-- The sprite and string identifiers stored in `rct_widget::content` and
`rct_widget::tooltip`; only their identity matters here. -/
inductive ResourceId
  | SPR_MENU_NEW_GAME
  | SPR_MENU_LOAD_GAME
  | SPR_G2_MENU_MULTIPLAYER
  | SPR_MENU_TOOLBOX
  | STR_START_NEW_GAME_TIP
  | STR_CONTINUE_SAVED_GAME_TIP
  | STR_SHOW_MULTIPLAYER_TIP
  | STR_GAME_TOOLS_TIP
  | STR_UPDATE_AVAILABLE
  | STR_NONE
  | NoContent
  deriving DecidableEq, Repr

/-- A width/height pair (`ScreenSize`). -/
structure ScreenSize where
  width : Int
  height : Int
  deriving DecidableEq, Repr

/-- A screen position (`ScreenCoordsXY`). -/
structure ScreenCoordsXY where
  x : Int
  y : Int
  deriving DecidableEq, Repr

/-- A screen rectangle given by its top-left and bottom-right corners
(`ScreenRect`, built in the source from `left, top, right, bottom`). -/
structure ScreenRect where
  Point1 : ScreenCoordsXY
  Point2 : ScreenCoordsXY
  deriving DecidableEq, Repr

/-- One entry of a window's widget table (`rct_widget`). -/
structure rct_widget where
  type : WindowWidgetType
  colour : WindowColour
  left : Int
  right : Int
  top : Int
  bottom : Int
  content : ResourceId
  tooltip : ResourceId
  deriving DecidableEq, Repr

/-- The part of `rct_window` this file reads and writes. -/
structure rct_window where
  windowPos : ScreenCoordsXY
  width : Int
  height : Int
  enabled_widgets : Nat
  widgets : List rct_widget
  deriving DecidableEq, Repr

/-- `static constexpr ScreenSize MenuButtonDims = { 82, 82 }`. -/
def MenuButtonDims : ScreenSize := { width := 82, height := 82 }

/-- `static constexpr ScreenSize UpdateButtonDims = { MenuButtonDims.width * 4, 28 }`. -/
def UpdateButtonDims : ScreenSize := { width := MenuButtonDims.width * 4, height := 28 }

/-- Modelled from the spec: the widget descriptor factory `MakeWidget`
(declared in the widget framework header, which is not among the sources). It
takes an offset, a size, a kind, a colour slot, a content reference and a
tooltip reference; the slot's top-left corner is the offset and it occupies
exactly `size.width × size.height` pixels, its edges being inclusive pixel
coordinates. -/
def MakeWidget (origin : ScreenCoordsXY) (size : ScreenSize) (type : WindowWidgetType)
    (colour : WindowColour) (content : ResourceId) (tooltip : ResourceId) : rct_widget :=
  { type := type
    colour := colour
    left := origin.x
    right := origin.x + size.width - 1
    top := origin.y
    bottom := origin.y + size.height - 1
    content := content
    tooltip := tooltip }

/-- Modelled from the spec: the table terminator `WIDGETS_END` (declared in the
widget framework header): an all-zero entry of kind `Last`. -/
def WIDGETS_END : rct_widget :=
  { type := .Last, colour := .Primary, left := 0, right := 0, top := 0, bottom := 0,
    content := .NoContent, tooltip := .STR_NONE }

/-- The initial value of the static table `window_title_menu_widgets`. -/
def window_title_menu_widgets : List rct_widget :=
  [ MakeWidget ⟨0, UpdateButtonDims.height⟩ MenuButtonDims .ImgBtn .Tertiary
      .SPR_MENU_NEW_GAME .STR_START_NEW_GAME_TIP,
    MakeWidget ⟨0, UpdateButtonDims.height⟩ MenuButtonDims .ImgBtn .Tertiary
      .SPR_MENU_LOAD_GAME .STR_CONTINUE_SAVED_GAME_TIP,
    MakeWidget ⟨0, UpdateButtonDims.height⟩ MenuButtonDims .ImgBtn .Tertiary
      .SPR_G2_MENU_MULTIPLAYER .STR_SHOW_MULTIPLAYER_TIP,
    MakeWidget ⟨0, UpdateButtonDims.height⟩ MenuButtonDims .ImgBtn .Tertiary
      .SPR_MENU_TOOLBOX .STR_GAME_TOOLS_TIP,
    MakeWidget ⟨0, 0⟩ UpdateButtonDims .Empty .Secondary
      .STR_UPDATE_AVAILABLE .STR_NONE,
    WIDGETS_END ]

/-- Modelled from the spec: `WidgetIsEnabled` (widget framework, not among the
sources): enablement is a bitmask keyed by slot index, so slot `i` is enabled
when bit `i` of `enabled_widgets` is set. -/
def WidgetIsEnabled (enabled_widgets : Nat) (widgetIndex : Nat) : Bool :=
  (enabled_widgets &&& (1 <<< widgetIndex)) != 0

/-- Modelled from the spec: the host's window-creation primitive `WindowCreate`
(not among the sources): a fresh window at the given position with the given
width and height, nothing enabled and no widget table attached yet. -/
def WindowCreate (pos : ScreenCoordsXY) (width height : Int) : rct_window :=
  { windowPos := pos, width := width, height := height, enabled_widgets := 0, widgets := [] }

/-! ## The constructor -/

/-- The bitmask expression assigned to `enabled_widgets` in
`window_title_menu_open`, with each of the four `1ULL << WIDX_…` terms made
conditional. The source has only the multiplayer term conditional (on
`DISABLE_NETWORK`); see `initialEnabledWidgets`. -/
def enabledWidgetsOf (newGame continueGame multiplayer gameTools : Bool) : Nat :=
  (if newGame then 1 <<< WIDX_START_NEW_GAME else 0) |||
  (if continueGame then 1 <<< WIDX_CONTINUE_SAVED_GAME else 0) |||
  (if multiplayer then 1 <<< WIDX_MULTIPLAYER else 0) |||
  (if gameTools then 1 <<< WIDX_GAME_TOOLS else 0)

/-- The value the source assigns to `enabled_widgets`: all four action slots,
without the multiplayer slot when `DISABLE_NETWORK` is defined. -/
def initialEnabledWidgets (disableNetwork : Bool) : Nat :=
  enabledWidgetsOf true true (!disableNetwork) true

/-- The `for` loop of `window_title_menu_open`. The list is the part of the
table from the `widget` pointer on, `i` is the running widget index and `x` the
cursor. The loop stops when the pointer reaches `&widgets[WIDX_NEW_VERSION]`;
the result is the rewritten table part and the final cursor. -/
def packWidgets (enabled_widgets : Nat) : List rct_widget → Nat → Int → List rct_widget × Int
  | [], _, x => ([], x)
  | widget :: rest, i, x =>
    if i = WIDX_NEW_VERSION then
      (widget :: rest, x)
    else if WidgetIsEnabled enabled_widgets i then
      let r := packWidgets enabled_widgets rest (i + 1) (x + MenuButtonDims.width)
      ({ widget with left := x, right := x + MenuButtonDims.width - 1 } :: r.1, r.2)
    else
      let r := packWidgets enabled_widgets rest (i + 1) x
      ({ widget with type := .Empty } :: r.1, r.2)

/-- Assignment `widgets[i].right = v`. -/
def setRight : List rct_widget → Nat → Int → List rct_widget
  | [], _, _ => []
  | widget :: rest, 0, v => { widget with right := v } :: rest
  | widget :: rest, i + 1, v => widget :: setRight rest i v

/-- Assignment `widgets[i].type = t`. -/
def setType : List rct_widget → Nat → WindowWidgetType → List rct_widget
  | [], _, _ => []
  | widget :: rest, 0, t => { widget with type := t } :: rest
  | widget :: rest, i + 1, t => widget :: setType rest i t

/-- Read access `widgets[i]`. -/
def widgetAt (widgets : List rct_widget) (i : Nat) : rct_widget :=
  widgets.getD i WIDGETS_END

/-- The body of `window_title_menu_open`, with the widget table it finds in the
static (`table`), the bitmask it assigns to `enabled_widgets`, and the screen
metrics `context_get_width()` and `context_get_height()` as inputs. The
division is C++ integer division, which truncates toward zero. -/
def window_title_menu_open_with (table : List rct_widget) (enabled_widgets : Nat)
    (context_width context_height : Int) : rct_window :=
  let windowHeight := MenuButtonDims.height + UpdateButtonDims.height
  let window := WindowCreate ⟨0, context_height - 182⟩ 0 windowHeight
  let window := { window with widgets := table }
  let window := { window with enabled_widgets := enabled_widgets }
  let packed := packWidgets window.enabled_widgets window.widgets 0 0
  let window := { window with widgets := packed.1 }
  let window := { window with width := packed.2 }
  let window := { window with widgets := setRight window.widgets WIDX_NEW_VERSION window.width }
  let window :=
    { window with
      windowPos := { window.windowPos with x := Int.tdiv (context_width - window.width) 2 } }
  window

/-- The function `window_title_menu_open` on a freshly initialised static table. -/
def window_title_menu_open (disableNetwork : Bool) (context_width context_height : Int) :
    rct_window :=
  window_title_menu_open_with window_title_menu_widgets (initialEnabledWidgets disableNetwork)
    context_width context_height

/-- Construction with the subset of action slots given by four flags. -/
def openWithSlots (newGame continueGame multiplayer gameTools : Bool)
    (context_width context_height : Int) : rct_window :=
  window_title_menu_open_with window_title_menu_widgets
    (enabledWidgetsOf newGame continueGame multiplayer gameTools) context_width context_height

/-- The action slots in declaration order. -/
def actionSlots : List Nat :=
  [WIDX_START_NEW_GAME, WIDX_CONTINUE_SAVED_GAME, WIDX_MULTIPLAYER, WIDX_GAME_TOOLS]

/-- The enabled action slots of a bitmask, in declaration order. -/
def enabledSlots (enabled_widgets : Nat) : List Nat :=
  actionSlots.filter (WidgetIsEnabled enabled_widgets)

/-- Number of enabled action slots declared before slot `i`. -/
def rankOf (enabled_widgets : Nat) (i : Nat) : Nat :=
  ((List.range i).filter (WidgetIsEnabled enabled_widgets)).length

/-! ## Host calls made by the handlers -/

/-- The views that `context_open_window_view` can be asked for in this file. -/
inductive WindowView
  | WV_NEW_VERSION_INFO
  deriving DecidableEq, Repr

/-- The window classes named in this file, and the window that shows a view
opened through `context_open_window_view`. -/
inductive WindowClass
  | WC_TITLE_MENU
  | WC_SCENARIO_SELECT
  | WC_LOADSAVE
  | WC_SERVER_LIST
  | viewWindow (view : WindowView)
  deriving DecidableEq, Repr

/-- The modes of `LoadOrQuitAction` used in this file. -/
inductive LoadOrQuitModes
  | OpenSavePrompt
  deriving DecidableEq, Repr

/-- The callbacks handed to the scenario selector. -/
inductive ScenarioCallback
  | window_title_menu_scenarioselect_callback
  deriving DecidableEq, Repr

/-- The directory bases of the platform environment used in this file. -/
inductive DIRBASE
  | USER
  deriving DecidableEq, Repr

/-- A call from `window_title_menu_mouseup` into the host, with its arguments.
`window_bring_to_front` receives the window that `window_find_by_class` returned,
identified here by its class. -/
inductive WindowCall
  | window_bring_to_front (cls : WindowClass)
  | window_close_by_class (cls : WindowClass)
  | window_scenarioselect_open (callback : ScenarioCallback) (titleEditor : Bool)
  | GameActions_Execute_LoadOrQuitAction (mode : LoadOrQuitModes)
  | context_open_window (cls : WindowClass)
  | context_open_window_view (view : WindowView)
  deriving DecidableEq, Repr

/-- A call from `window_title_menu_dropdown` into the editor or the UI context. -/
inductive ToolCall
  | Editor_Load
  | Editor_ConvertSaveToScenario
  | Editor_LoadTrackDesigner
  | Editor_LoadTrackManager
  | OpenFolder (path : String)
  deriving DecidableEq, Repr

/-! ## Handlers -/

/-- The handler `window_title_menu_mouseup`: the host calls it makes, in order.
`window_find_by_class` is the host query, answering whether a window of the
class exists. -/
def window_title_menu_mouseup (window_find_by_class : WindowClass → Bool) (widgetIndex : Int) :
    List WindowCall :=
  if widgetIndex = WIDX_START_NEW_GAME then
    if window_find_by_class .WC_SCENARIO_SELECT then
      [.window_bring_to_front .WC_SCENARIO_SELECT]
    else
      [.window_close_by_class .WC_LOADSAVE,
       .window_close_by_class .WC_SERVER_LIST,
       .window_scenarioselect_open .window_title_menu_scenarioselect_callback false]
  else if widgetIndex = WIDX_CONTINUE_SAVED_GAME then
    if window_find_by_class .WC_LOADSAVE then
      [.window_bring_to_front .WC_LOADSAVE]
    else
      [.window_close_by_class .WC_SCENARIO_SELECT,
       .window_close_by_class .WC_SERVER_LIST,
       .GameActions_Execute_LoadOrQuitAction .OpenSavePrompt]
  else if widgetIndex = WIDX_MULTIPLAYER then
    if window_find_by_class .WC_SERVER_LIST then
      [.window_bring_to_front .WC_SERVER_LIST]
    else
      [.window_close_by_class .WC_SCENARIO_SELECT,
       .window_close_by_class .WC_LOADSAVE,
       .context_open_window .WC_SERVER_LIST]
  else if widgetIndex = WIDX_NEW_VERSION then
    [.context_open_window_view .WV_NEW_VERSION_INFO]
  else
    []

/-- The handler `window_title_menu_dropdown`: the calls it makes, in order.
`GetDirectoryPath` is the platform environment's directory resolution. -/
def window_title_menu_dropdown (GetDirectoryPath : DIRBASE → String) (widgetIndex : Int)
    (dropdownIndex : Int) : List ToolCall :=
  if widgetIndex = WIDX_GAME_TOOLS then
    if dropdownIndex = 0 then [.Editor_Load]
    else if dropdownIndex = 1 then [.Editor_ConvertSaveToScenario]
    else if dropdownIndex = 2 then [.Editor_LoadTrackDesigner]
    else if dropdownIndex = 3 then [.Editor_LoadTrackManager]
    else if dropdownIndex = 4 then [.OpenFolder (GetDirectoryPath .USER)]
    else []
  else
    []

/-- The window together with the static `_filterRect`. -/
structure TitleMenuState where
  window : rct_window
  _filterRect : ScreenRect
  deriving DecidableEq, Repr

/-- The handler `window_title_menu_invalidate`; `HasNewVersionInfo` is the
answer of `OpenRCT2::GetContext()->HasNewVersionInfo()`. -/
def window_title_menu_invalidate (HasNewVersionInfo : Bool) (s : TitleMenuState) :
    TitleMenuState :=
  let w := s.window
  let filterRect : ScreenRect :=
    { Point1 := { x := w.windowPos.x, y := w.windowPos.y + UpdateButtonDims.height }
      Point2 := { x := w.windowPos.x + w.width - 1,
                  y := w.windowPos.y + MenuButtonDims.height + UpdateButtonDims.height - 1 } }
  if HasNewVersionInfo then
    let w := { w with enabled_widgets := w.enabled_widgets ||| (1 <<< WIDX_NEW_VERSION) }
    let w := { w with widgets := setType w.widgets WIDX_NEW_VERSION .Button }
    { window := w
      _filterRect := { filterRect with Point1 := { filterRect.Point1 with y := w.windowPos.y } } }
  else
    { window := w, _filterRect := filterRect }

/-! ## Derived notions used in the statements -/

/-- The state right after construction with the given subset of action slots:
the window returned by the constructor and the zero-initialised `_filterRect`. -/
def constructed (newGame continueGame multiplayer gameTools : Bool)
    (context_width context_height : Int) : TitleMenuState :=
  { window := openWithSlots newGame continueGame multiplayer gameTools context_width context_height
    _filterRect := { Point1 := { x := 0, y := 0 }, Point2 := { x := 0, y := 0 } } }

/-- A finite sequence of invalidations, oldest first; each entry is the answer
of the update-information query at that invalidation. -/
def invalidations (answers : List Bool) (s : TitleMenuState) : TitleMenuState :=
  answers.foldl (fun st answer => window_title_menu_invalidate answer st) s

/-- The banner slot is present: its kind is an active button and its enabled
bit is set. -/
def bannerPresent (s : TitleMenuState) : Bool :=
  match (widgetAt s.window.widgets WIDX_NEW_VERSION).type with
  | .Button => WidgetIsEnabled s.window.enabled_widgets WIDX_NEW_VERSION
  | _ => false

/-- Update information, once reported present, is reported present at every
later invalidation of the sequence. -/
def staysPresent : List Bool → Bool
  | [] => true
  | answer :: later => if answer then later.all id else staysPresent later

/-- The three peer window classes of the menu. -/
def peerClasses : List WindowClass :=
  [.WC_SCENARIO_SELECT, .WC_LOADSAVE, .WC_SERVER_LIST]

/-- Modelled from the spec: the effect of one host call on the set of open
window classes (the window manager is not among the sources). Close-by-class
removes the class, each open action adds the class of the window it opens,
and raising a window leaves the set as it is. -/
def applyWindowCall (opened : Finset WindowClass) : WindowCall → Finset WindowClass
  | .window_bring_to_front _ => opened
  | .window_close_by_class cls => opened.erase cls
  | .window_scenarioselect_open _ _ => insert .WC_SCENARIO_SELECT opened
  | .GameActions_Execute_LoadOrQuitAction .OpenSavePrompt => insert .WC_LOADSAVE opened
  | .context_open_window cls => insert cls opened
  | .context_open_window_view view => insert (.viewWindow view) opened

/-- One mouse-up event as a step on the set of open window classes: the handler
queries the set through `window_find_by_class` and its calls are applied in
order. -/
def mouseupStep (opened : Finset WindowClass) (widgetIndex : Int) : Finset WindowClass :=
  (window_title_menu_mouseup (fun cls => decide (cls ∈ opened)) widgetIndex).foldl
    applyWindowCall opened

/-- Number of peer windows that are open. -/
def openPeers (opened : Finset WindowClass) : Nat :=
  (peerClasses.filter (fun cls => decide (cls ∈ opened))).length

/-! ## Helper lemmas -/

theorem open_width (t : List rct_widget) (e : Nat) (W H : Int) :
    (window_title_menu_open_with t e W H).width = (packWidgets e t 0 0).2 := rfl

theorem open_widgets (t : List rct_widget) (e : Nat) (W H : Int) :
    (window_title_menu_open_with t e W H).widgets
      = setRight (packWidgets e t 0 0).1 WIDX_NEW_VERSION (packWidgets e t 0 0).2 := rfl

theorem open_x (t : List rct_widget) (e : Nat) (W H : Int) :
    (window_title_menu_open_with t e W H).windowPos.x
      = Int.tdiv (W - (packWidgets e t 0 0).2) 2 := rfl

theorem open_y (t : List rct_widget) (e : Nat) (W H : Int) :
    (window_title_menu_open_with t e W H).windowPos.y = H - 182 := rfl

theorem open_enabled (t : List rct_widget) (e : Nat) (W H : Int) :
    (window_title_menu_open_with t e W H).enabled_widgets = e := rfl

/-- The cursor of the packing loop never decreases and advances by at most one
button width per remaining action slot, so it stays within `[0, 328]` when the
loop starts at slot 0 with cursor 0. -/
theorem packWidgets_cursor_bounds (e : Nat) (ws : List rct_widget) (i : Nat) (x : Int)
    (hi : i ≤ WIDX_NEW_VERSION) :
    x ≤ (packWidgets e ws i x).2 ∧
      (packWidgets e ws i x).2 ≤ x + MenuButtonDims.width * ((WIDX_NEW_VERSION - i : Nat) : Int) := by
  induction ws generalizing i x with
  | nil =>
    simp only [packWidgets, MenuButtonDims, WIDX_NEW_VERSION]
    omega
  | cons w rest ih =>
    unfold packWidgets
    by_cases h4 : i = WIDX_NEW_VERSION
    · simp only [h4, if_true, MenuButtonDims, WIDX_NEW_VERSION]
      omega
    · have hlt : i + 1 ≤ WIDX_NEW_VERSION := by omega
      cases he : WidgetIsEnabled e i
      · have := ih (i + 1) x hlt
        simp only [h4, if_false, Bool.false_eq_true]
        simp only [MenuButtonDims, WIDX_NEW_VERSION] at *
        omega
      · have := ih (i + 1) (x + MenuButtonDims.width) hlt
        simp only [h4, if_true, if_false]
        simp only [MenuButtonDims, WIDX_NEW_VERSION] at *
        omega

/-- Truncating division by two is non-negative exactly from `-1` upwards. -/
theorem tdiv_two_nonneg_iff (a : Int) : 0 ≤ Int.tdiv a 2 ↔ -1 ≤ a := by
  by_cases h : 0 ≤ a
  · rw [Int.tdiv_eq_ediv h (by decide)]
    omega
  · have hn : a = -(-a) := by omega
    rw [hn, Int.neg_tdiv, Int.tdiv_eq_ediv (by omega) (by decide)]
    omega

/-- The enablement test reads bit `i` of the mask. -/
theorem WidgetIsEnabled_eq_testBit (e i : Nat) : WidgetIsEnabled e i = e.testBit i := by
  unfold WidgetIsEnabled
  rw [Nat.one_shiftLeft, Nat.and_two_pow]
  have hp : 0 < 2 ^ i := Nat.two_pow_pos i
  cases h : e.testBit i
  · simp
  · simp only [Bool.toNat_true, Nat.one_mul, bne_iff_ne, ne_eq]
    omega

theorem setType_length (ws : List rct_widget) (i : Nat) (t : WindowWidgetType) :
    (setType ws i t).length = ws.length := by
  induction ws generalizing i with
  | nil => simp [setType]
  | cons w rest ih =>
    cases i with
    | zero => simp [setType]
    | succ n => simp [setType, ih]

theorem widgetAt_setType_ne (ws : List rct_widget) (i j : Nat) (t : WindowWidgetType)
    (h : j ≠ i) : widgetAt (setType ws i t) j = widgetAt ws j := by
  induction ws generalizing i j with
  | nil => simp [setType]
  | cons w rest ih =>
    cases i with
    | zero =>
      cases j with
      | zero => exact absurd rfl h
      | succ m => simp [setType, widgetAt]
    | succ n =>
      cases j with
      | zero => simp [setType, widgetAt]
      | succ m =>
        have := ih n m (by omega)
        simpa [setType, widgetAt] using this

theorem widgetAt_setType_same (ws : List rct_widget) (i : Nat) (t : WindowWidgetType) :
    { widgetAt (setType ws i t) i with type := (widgetAt ws i).type } = widgetAt ws i := by
  induction ws generalizing i with
  | nil => simp [setType]
  | cons w rest ih =>
    cases i with
    | zero => simp [setType, widgetAt]
    | succ n =>
      have := ih n
      simpa [setType, widgetAt] using this

theorem widgetAt_setType_type (ws : List rct_widget) (i : Nat) (t : WindowWidgetType)
    (h : i < ws.length) : (widgetAt (setType ws i t) i).type = t := by
  induction ws generalizing i with
  | nil => simp at h
  | cons w rest ih =>
    cases i with
    | zero => simp [setType, widgetAt]
    | succ n =>
      have := ih n (by simpa using h)
      simpa [setType, widgetAt] using this

/-! ## Construction: width, packing, centring -/

/-- C1. For every subset of the four action slots used as the enabled bitset at
construction, the window width is the number of enabled slots times the button
width 82 (the enabled slots of the bitset being exactly the chosen subset); it
is 328 with all four enabled, 246 with only Multiplayer disabled, and 0 with
none enabled. -/
theorem window_width_eq_enabled_count (newGame continueGame multiplayer gameTools : Bool)
    (W H : Int) :
    (openWithSlots newGame continueGame multiplayer gameTools W H).width
        = (([newGame, continueGame, multiplayer, gameTools].count true : Nat) : Int) * 82
      ∧ MenuButtonDims.width = 82
      ∧ (enabledSlots (enabledWidgetsOf newGame continueGame multiplayer gameTools)).length
          = [newGame, continueGame, multiplayer, gameTools].count true
      ∧ (openWithSlots true true true true W H).width = 328
      ∧ (openWithSlots true true false true W H).width = 246
      ∧ (window_title_menu_open false W H).width = 328
      ∧ (window_title_menu_open true W H).width = 246
      ∧ (openWithSlots false false false false W H).width = 0 := by
  simp only [openWithSlots, window_title_menu_open, open_width]
  revert newGame continueGame multiplayer gameTools
  decide

/-- C2. For every subset of enabled action slots, after construction the k-th
enabled slot in declaration order (k from 0) has left = 82·k and
right = 82·k + 81; the enabled slots are the chosen ones in declaration order;
every disabled action slot has kind `Empty`; and with all four enabled the left
edges are 0, 82, 164, 246. -/
theorem enabled_slots_packed_in_order (newGame continueGame multiplayer gameTools : Bool)
    (W H : Int) :
    (enabledSlots (enabledWidgetsOf newGame continueGame multiplayer gameTools)).map
        (fun i =>
          ((widgetAt (openWithSlots newGame continueGame multiplayer gameTools W H).widgets i).left,
           (widgetAt (openWithSlots newGame continueGame multiplayer gameTools W H).widgets i).right))
        = (List.range
            (enabledSlots (enabledWidgetsOf newGame continueGame multiplayer gameTools)).length).map
            (fun k => (82 * (k : Int), 82 * (k : Int) + 81))
      ∧ enabledSlots (enabledWidgetsOf newGame continueGame multiplayer gameTools)
          = (List.zip actionSlots [newGame, continueGame, multiplayer, gameTools]).filterMap
              (fun p => if p.2 then some p.1 else none)
      ∧ (∀ i ∈ actionSlots,
          WidgetIsEnabled (enabledWidgetsOf newGame continueGame multiplayer gameTools) i = false →
          (widgetAt (openWithSlots newGame continueGame multiplayer gameTools W H).widgets i).type
            = .Empty)
      ∧ actionSlots.map (fun i => (widgetAt (openWithSlots true true true true W H).widgets i).left)
          = [0, 82, 164, 246] := by
  simp only [openWithSlots, open_widgets]
  revert newGame continueGame multiplayer gameTools
  decide

/-- Witness for C2: with Multiplayer disabled, the multiplayer slot is demoted
to `Empty`. -/
theorem enabled_slots_packed_in_order_witness :
    (widgetAt (openWithSlots true true false true 1920 1080).widgets WIDX_MULTIPLAYER).type
      = .Empty :=
  (enabled_slots_packed_in_order true true false true 1920 1080).2.2.1 WIDX_MULTIPLAYER
    (by decide) (by decide)

/-- C3 as stated fails: on a screen 100 pixels wide with all four slots
enabled the window's horizontal origin is negative. -/
theorem window_x_negative_on_narrow_screen :
    (0 : Int) < 100 ∧
      (openWithSlots true true true true 100 1080).windowPos.x
        = Int.tdiv (100 - (openWithSlots true true true true 100 1080).width) 2 ∧
      (openWithSlots true true true true 100 1080).windowPos.x = -114 ∧
      ¬ (0 ≤ (openWithSlots true true true true 100 1080).windowPos.x) := by
  decide

/-- C3, amended. For any positive screen width `W` and any enabled subset,
after construction window-x equals `(W − window-width) / 2` with C++ integer
division (truncating toward zero). It is non-negative exactly when
`window-width ≤ W + 1`: whenever the screen is at least as wide as the window,
and also when the screen is exactly one pixel narrower, where truncation gives
0 (`W = 327` with four buttons gives window-x = 0). It is negative exactly when
`window-width > W + 1`. For `W = 1920` it is 796 with four buttons and 837 with
three. -/
theorem window_x_centred (newGame continueGame multiplayer gameTools : Bool) (W H : Int)
    (_hW : 0 < W) :
    (openWithSlots newGame continueGame multiplayer gameTools W H).windowPos.x
        = Int.tdiv (W - (openWithSlots newGame continueGame multiplayer gameTools W H).width) 2
      ∧ (0 ≤ (openWithSlots newGame continueGame multiplayer gameTools W H).windowPos.x
          ↔ (openWithSlots newGame continueGame multiplayer gameTools W H).width ≤ W + 1)
      ∧ ((openWithSlots newGame continueGame multiplayer gameTools W H).width ≤ W →
          0 ≤ (openWithSlots newGame continueGame multiplayer gameTools W H).windowPos.x)
      ∧ (openWithSlots true true true true 1920 H).windowPos.x = 796
      ∧ (openWithSlots true true false true 1920 H).windowPos.x = 837
      ∧ ((openWithSlots newGame continueGame multiplayer gameTools W H).windowPos.x < 0
          ↔ W + 1 < (openWithSlots newGame continueGame multiplayer gameTools W H).width)
      ∧ ((openWithSlots newGame continueGame multiplayer gameTools W H).width = W + 1 →
          (openWithSlots newGame continueGame multiplayer gameTools W H).windowPos.x = 0)
      ∧ (openWithSlots true true true true 327 H).width = 328
      ∧ (openWithSlots true true true true 327 H).windowPos.x = 0 := by
  have hiff : (0 ≤ (openWithSlots newGame continueGame multiplayer gameTools W H).windowPos.x
      ↔ (openWithSlots newGame continueGame multiplayer gameTools W H).width ≤ W + 1) := by
    simp only [openWithSlots, open_x, open_width, tdiv_two_nonneg_iff]
    omega
  have hneg : ((openWithSlots newGame continueGame multiplayer gameTools W H).windowPos.x < 0
      ↔ W + 1 < (openWithSlots newGame continueGame multiplayer gameTools W H).width) := by
    constructor
    · intro hx
      by_contra hle
      have := hiff.mpr (by omega)
      omega
    · intro hlt
      by_contra hx
      have := hiff.mp (by omega)
      omega
  have hedge : (openWithSlots newGame continueGame multiplayer gameTools W H).width = W + 1 →
      (openWithSlots newGame continueGame multiplayer gameTools W H).windowPos.x = 0 := by
    intro hw
    have hx : (openWithSlots newGame continueGame multiplayer gameTools W H).windowPos.x
        = Int.tdiv (W - (openWithSlots newGame continueGame multiplayer gameTools W H).width) 2 :=
      rfl
    rw [hx, hw]
    have : W - (W + 1) = -1 := by omega
    rw [this]
    decide
  refine ⟨rfl, hiff, fun h => hiff.mpr (by omega), ?_, ?_, hneg, hedge, ?_, ?_⟩
  · simp only [openWithSlots, open_x]
    decide
  · simp only [openWithSlots, open_x]
    decide
  · simp only [openWithSlots, open_width]
    decide
  · simp only [openWithSlots, open_x]
    decide

/-- Witness for C3 (amended): a 1920-pixel screen with all four slots enabled. -/
theorem window_x_centred_witness :
    (0 : Int) < 1920 ∧ (openWithSlots true true true true 1920 1080).windowPos.x = 796 :=
  ⟨by decide, (window_x_centred true true true true 1920 1080 (by decide)).2.2.2.1⟩

/-- C7. After construction, for every enabled subset, the banner slot's left
and top edges are 0 and every action slot's top edge is 28, but the banner's
right edge is the window width itself, not `window-width − 1`: read as an
inclusive pixel coordinate it lies one column beyond the window's last column
and beyond the right edge of the packed button row. In the default build the
banner's right edge is 328 while the last button's right edge is 327, which is
also the right edge the widget table declares for the banner. -/
theorem banner_right_edge_is_window_width (newGame continueGame multiplayer gameTools : Bool)
    (W H : Int) :
    (widgetAt (openWithSlots newGame continueGame multiplayer gameTools W H).widgets
        WIDX_NEW_VERSION).left = 0
      ∧ (widgetAt (openWithSlots newGame continueGame multiplayer gameTools W H).widgets
          WIDX_NEW_VERSION).top = 0
      ∧ actionSlots.map
          (fun i =>
            (widgetAt (openWithSlots newGame continueGame multiplayer gameTools W H).widgets i).top)
          = [28, 28, 28, 28]
      ∧ (widgetAt (openWithSlots newGame continueGame multiplayer gameTools W H).widgets
          WIDX_NEW_VERSION).right
          = (openWithSlots newGame continueGame multiplayer gameTools W H).width
      ∧ (widgetAt (openWithSlots newGame continueGame multiplayer gameTools W H).widgets
          WIDX_NEW_VERSION).right
          ≠ (openWithSlots newGame continueGame multiplayer gameTools W H).width - 1
      ∧ (window_title_menu_open false W H).width = 328
      ∧ (widgetAt (window_title_menu_open false W H).widgets WIDX_NEW_VERSION).right = 328
      ∧ (widgetAt (window_title_menu_open false W H).widgets WIDX_GAME_TOOLS).right = 327
      ∧ (widgetAt window_title_menu_widgets WIDX_NEW_VERSION).right = 327 := by
  simp only [openWithSlots, window_title_menu_open, open_widgets, open_width]
  revert newGame continueGame multiplayer gameTools
  decide

/-! ## Invalidation -/

/-- C4. For every window state whose widget table holds the banner slot,
`window_title_menu_invalidate` sets filter-rect to
`(x, y + 28, x + w − 1, y + 28 + 82 − 1)` when update information is absent;
when it is present the rectangle is the same except `y1 = y`, the banner slot's
enabled bit is set and the banner slot's kind is `Button`. -/
theorem invalidate_filter_rect (s : TitleMenuState)
    (hbanner : WIDX_NEW_VERSION < s.window.widgets.length) :
    (window_title_menu_invalidate false s)._filterRect
        = { Point1 := { x := s.window.windowPos.x, y := s.window.windowPos.y + 28 }
            Point2 := { x := s.window.windowPos.x + s.window.width - 1,
                        y := s.window.windowPos.y + 28 + 82 - 1 } }
      ∧ (window_title_menu_invalidate true s)._filterRect
        = { Point1 := { x := s.window.windowPos.x, y := s.window.windowPos.y }
            Point2 := { x := s.window.windowPos.x + s.window.width - 1,
                        y := s.window.windowPos.y + 28 + 82 - 1 } }
      ∧ WidgetIsEnabled (window_title_menu_invalidate true s).window.enabled_widgets
          WIDX_NEW_VERSION = true
      ∧ (widgetAt (window_title_menu_invalidate true s).window.widgets WIDX_NEW_VERSION).type
          = .Button := by
  refine ⟨?_, ?_, ?_, ?_⟩
  · simp only [window_title_menu_invalidate, MenuButtonDims, UpdateButtonDims, if_false,
      Bool.false_eq_true, ScreenRect.mk.injEq, ScreenCoordsXY.mk.injEq, true_and]
    omega
  · simp only [window_title_menu_invalidate, MenuButtonDims, UpdateButtonDims, if_true,
      ScreenRect.mk.injEq, ScreenCoordsXY.mk.injEq, true_and]
    omega
  · simp only [window_title_menu_invalidate, if_true, WidgetIsEnabled_eq_testBit,
      Nat.testBit_or, Nat.one_shiftLeft, Nat.testBit_two_pow]
    simp
  · simp only [window_title_menu_invalidate, if_true]
    exact widgetAt_setType_type _ _ _ hbanner

/-- Witness for C4: the state right after construction on a 1920×1080 screen. -/
theorem invalidate_filter_rect_witness :
    WIDX_NEW_VERSION < (constructed true true true true 1920 1080).window.widgets.length
      ∧ (window_title_menu_invalidate true
          (constructed true true true true 1920 1080))._filterRect
        = { Point1 := { x := 796, y := 898 }, Point2 := { x := 1123, y := 1007 } } :=
  ⟨by decide, (invalidate_filter_rect (constructed true true true true 1920 1080) (by decide)).2.1⟩

/-- C10. Frame of invalidation: for every window state and either answer,
`window_title_menu_invalidate` keeps the window position, width and height,
the length of the widget table, every widget other than the banner slot and
every enabled bit other than the banner's; of the banner slot it keeps every
field except the kind; and when update information is absent the whole window
record is unchanged. -/
theorem invalidate_frame (s : TitleMenuState) (answer : Bool) :
    (window_title_menu_invalidate answer s).window.windowPos = s.window.windowPos
      ∧ (window_title_menu_invalidate answer s).window.width = s.window.width
      ∧ (window_title_menu_invalidate answer s).window.height = s.window.height
      ∧ (window_title_menu_invalidate answer s).window.widgets.length = s.window.widgets.length
      ∧ (∀ i, i ≠ WIDX_NEW_VERSION →
          widgetAt (window_title_menu_invalidate answer s).window.widgets i
              = widgetAt s.window.widgets i
            ∧ WidgetIsEnabled (window_title_menu_invalidate answer s).window.enabled_widgets i
              = WidgetIsEnabled s.window.enabled_widgets i)
      ∧ { widgetAt (window_title_menu_invalidate answer s).window.widgets WIDX_NEW_VERSION with
            type := (widgetAt s.window.widgets WIDX_NEW_VERSION).type }
          = widgetAt s.window.widgets WIDX_NEW_VERSION
      ∧ (answer = false → (window_title_menu_invalidate answer s).window = s.window) := by
  cases answer
  · simp [window_title_menu_invalidate]
  · refine ⟨rfl, rfl, rfl, ?_, ?_, ?_, ?_⟩
    · simp only [window_title_menu_invalidate, if_true]
      exact setType_length _ _ _
    · intro i hi
      constructor
      · simp only [window_title_menu_invalidate, if_true]
        exact widgetAt_setType_ne _ _ _ _ hi
      · simp only [window_title_menu_invalidate, if_true, WidgetIsEnabled_eq_testBit,
          Nat.testBit_or, Nat.one_shiftLeft, Nat.testBit_two_pow]
        have : decide (WIDX_NEW_VERSION = i) = false := by
          simp only [decide_eq_false_iff_not]
          exact fun h => hi h.symm
        rw [this, Bool.or_false]
    · simp only [window_title_menu_invalidate, if_true]
      exact widgetAt_setType_same _ _ _
    · intro h
      exact absurd h (by decide)

/-- Witness for C10: invalidating the freshly constructed window with update
information present leaves the Game-Tools slot as it was, and with update
information absent leaves the whole window as it was. -/
theorem invalidate_frame_witness :
    widgetAt (window_title_menu_invalidate true
        (constructed true true true true 1920 1080)).window.widgets WIDX_GAME_TOOLS
      = widgetAt (constructed true true true true 1920 1080).window.widgets WIDX_GAME_TOOLS
    ∧ (window_title_menu_invalidate false (constructed true true true true 1920 1080)).window
      = (constructed true true true true 1920 1080).window :=
  ⟨((invalidate_frame (constructed true true true true 1920 1080) true).2.2.2.2.1
      WIDX_GAME_TOOLS (by decide)).1,
   (invalidate_frame (constructed true true true true 1920 1080) false).2.2.2.2.2.2 rfl⟩

/-! ## Mouse-up and dropdown dispatch -/

/-- C5. For each of NewGame, Continue and Multiplayer, with peer class
scenario-select, load/save and server-list respectively, and whatever windows
are open: if the peer window exists the handler only raises it (no close, no
open); otherwise it issues close-by-class for exactly the other two peer
classes and then exactly one open action, the one bound to the slot. -/
theorem mouseup_peer_dispatch (window_find_by_class : WindowClass → Bool) :
    window_title_menu_mouseup window_find_by_class WIDX_START_NEW_GAME
        = (if window_find_by_class .WC_SCENARIO_SELECT then
            [.window_bring_to_front .WC_SCENARIO_SELECT]
          else
            [.window_close_by_class .WC_LOADSAVE, .window_close_by_class .WC_SERVER_LIST,
             .window_scenarioselect_open .window_title_menu_scenarioselect_callback false])
      ∧ window_title_menu_mouseup window_find_by_class WIDX_CONTINUE_SAVED_GAME
        = (if window_find_by_class .WC_LOADSAVE then
            [.window_bring_to_front .WC_LOADSAVE]
          else
            [.window_close_by_class .WC_SCENARIO_SELECT, .window_close_by_class .WC_SERVER_LIST,
             .GameActions_Execute_LoadOrQuitAction .OpenSavePrompt])
      ∧ window_title_menu_mouseup window_find_by_class WIDX_MULTIPLAYER
        = (if window_find_by_class .WC_SERVER_LIST then
            [.window_bring_to_front .WC_SERVER_LIST]
          else
            [.window_close_by_class .WC_SCENARIO_SELECT, .window_close_by_class .WC_LOADSAVE,
             .context_open_window .WC_SERVER_LIST]) := by
  refine ⟨?_, ?_, ?_⟩ <;>
    simp [window_title_menu_mouseup, WIDX_START_NEW_GAME, WIDX_CONTINUE_SAVED_GAME,
      WIDX_MULTIPLAYER]

/-- C6. For the Game-Tools slot the dropdown handler maps index 0 to entering
the scenario editor, 1 to convert-save-to-scenario, 2 to the track designer,
3 to the track manager and 4 to exactly one open-folder call on the resolved
user base directory; for every other index (negative or at least 5) and for
every widget index other than Game-Tools it makes no call at all. -/
theorem dropdown_dispatch (GetDirectoryPath : DIRBASE → String) :
    window_title_menu_dropdown GetDirectoryPath WIDX_GAME_TOOLS 0 = [.Editor_Load]
      ∧ window_title_menu_dropdown GetDirectoryPath WIDX_GAME_TOOLS 1
          = [.Editor_ConvertSaveToScenario]
      ∧ window_title_menu_dropdown GetDirectoryPath WIDX_GAME_TOOLS 2
          = [.Editor_LoadTrackDesigner]
      ∧ window_title_menu_dropdown GetDirectoryPath WIDX_GAME_TOOLS 3
          = [.Editor_LoadTrackManager]
      ∧ window_title_menu_dropdown GetDirectoryPath WIDX_GAME_TOOLS 4
          = [.OpenFolder (GetDirectoryPath .USER)]
      ∧ (∀ dropdownIndex : Int, dropdownIndex < 0 ∨ 5 ≤ dropdownIndex →
          window_title_menu_dropdown GetDirectoryPath WIDX_GAME_TOOLS dropdownIndex = [])
      ∧ (∀ widgetIndex dropdownIndex : Int, widgetIndex ≠ WIDX_GAME_TOOLS →
          window_title_menu_dropdown GetDirectoryPath widgetIndex dropdownIndex = []) := by
  refine ⟨?_, ?_, ?_, ?_, ?_, ?_, ?_⟩
  · simp [window_title_menu_dropdown]
  · simp [window_title_menu_dropdown]
  · simp [window_title_menu_dropdown]
  · simp [window_title_menu_dropdown]
  · simp [window_title_menu_dropdown]
  · intro d hd
    have h0 : d ≠ 0 := by omega
    have h1 : d ≠ 1 := by omega
    have h2 : d ≠ 2 := by omega
    have h3 : d ≠ 3 := by omega
    have h4 : d ≠ 4 := by omega
    simp [window_title_menu_dropdown, h0, h1, h2, h3, h4]
  · intro w d hw
    simp [window_title_menu_dropdown, hw]

/-- Witness for C6: index 7 on the Game-Tools slot, and index 4 on the
Multiplayer slot, make no call. -/
theorem dropdown_dispatch_witness :
    window_title_menu_dropdown (fun _ => "user") WIDX_GAME_TOOLS 7 = []
      ∧ window_title_menu_dropdown (fun _ => "user") WIDX_MULTIPLAYER 4 = [] :=
  ⟨(dropdown_dispatch (fun _ => "user")).2.2.2.2.2.1 7 (by decide),
   (dropdown_dispatch (fun _ => "user")).2.2.2.2.2.2 WIDX_MULTIPLAYER 4 (by decide)⟩

/-- C9. With close-by-class removing the class from the set of open windows and
each open action adding the class of the window it opens, mutual exclusion of
scenario-select, load/save and server-list is preserved by every mouse-up: from
a state with at most one of the three open, any widget index leads to a state
with at most one of them open; and when the pressed slot's peer was closed,
afterwards that peer is the only one of the three that is open, whatever was
open before. -/
theorem mouseup_mutual_exclusion (opened : Finset WindowClass) :
    (∀ widgetIndex : Int, openPeers opened ≤ 1 →
        openPeers (mouseupStep opened widgetIndex) ≤ 1)
      ∧ (WindowClass.WC_SCENARIO_SELECT ∉ opened →
          ∀ cls ∈ peerClasses,
            (cls ∈ mouseupStep opened WIDX_START_NEW_GAME ↔ cls = .WC_SCENARIO_SELECT))
      ∧ (WindowClass.WC_LOADSAVE ∉ opened →
          ∀ cls ∈ peerClasses,
            (cls ∈ mouseupStep opened WIDX_CONTINUE_SAVED_GAME ↔ cls = .WC_LOADSAVE))
      ∧ (WindowClass.WC_SERVER_LIST ∉ opened →
          ∀ cls ∈ peerClasses,
            (cls ∈ mouseupStep opened WIDX_MULTIPLAYER ↔ cls = .WC_SERVER_LIST)) := by
  refine ⟨?_, ?_, ?_, ?_⟩
  · intro widgetIndex
    by_cases hs : WindowClass.WC_SCENARIO_SELECT ∈ opened <;>
    by_cases hl : WindowClass.WC_LOADSAVE ∈ opened <;>
    by_cases hm : WindowClass.WC_SERVER_LIST ∈ opened <;>
    by_cases h0 : widgetIndex = 0 <;>
    by_cases h1 : widgetIndex = 1 <;>
    by_cases h2 : widgetIndex = 2 <;>
    by_cases h3 : widgetIndex = 4 <;>
    simp [openPeers, peerClasses, mouseupStep, window_title_menu_mouseup, applyWindowCall,
      WIDX_START_NEW_GAME, WIDX_CONTINUE_SAVED_GAME, WIDX_MULTIPLAYER, WIDX_NEW_VERSION,
      hs, hl, hm, h0, h1, h2, h3]
  · intro hs cls hcls
    simp only [peerClasses, List.mem_cons, List.mem_singleton, List.not_mem_nil, or_false] at hcls
    rcases hcls with rfl | rfl | rfl <;>
      simp [mouseupStep, window_title_menu_mouseup, applyWindowCall, WIDX_START_NEW_GAME, hs]
  · intro hl cls hcls
    simp only [peerClasses, List.mem_cons, List.mem_singleton, List.not_mem_nil, or_false] at hcls
    rcases hcls with rfl | rfl | rfl <;>
      simp [mouseupStep, window_title_menu_mouseup, applyWindowCall, WIDX_START_NEW_GAME,
        WIDX_CONTINUE_SAVED_GAME, hl]
  · intro hm cls hcls
    simp only [peerClasses, List.mem_cons, List.mem_singleton, List.not_mem_nil, or_false] at hcls
    rcases hcls with rfl | rfl | rfl <;>
      simp [mouseupStep, window_title_menu_mouseup, applyWindowCall, WIDX_START_NEW_GAME,
        WIDX_CONTINUE_SAVED_GAME, WIDX_MULTIPLAYER, hm]

/-- Witness for C9: with only load/save open, pressing NewGame leaves at most
one peer window open, and that one is scenario-select. -/
theorem mouseup_mutual_exclusion_witness :
    openPeers (mouseupStep {WindowClass.WC_LOADSAVE} WIDX_START_NEW_GAME) ≤ 1
      ∧ (WindowClass.WC_SCENARIO_SELECT
          ∈ mouseupStep {WindowClass.WC_LOADSAVE} WIDX_START_NEW_GAME
          ↔ WindowClass.WC_SCENARIO_SELECT = WindowClass.WC_SCENARIO_SELECT) :=
  ⟨(mouseup_mutual_exclusion {WindowClass.WC_LOADSAVE}).1 WIDX_START_NEW_GAME (by decide),
   (mouseup_mutual_exclusion {WindowClass.WC_LOADSAVE}).2.1 (by decide)
      WindowClass.WC_SCENARIO_SELECT (by decide)⟩

/-! ## Sequences of invalidations -/

theorem invalidations_snoc (earlier : List Bool) (latest : Bool) (s : TitleMenuState) :
    invalidations (earlier ++ [latest]) s
      = window_title_menu_invalidate latest (invalidations earlier s) := by
  simp [invalidations, List.foldl_append]

theorem invalidate_widgets_length (answer : Bool) (s : TitleMenuState) :
    (window_title_menu_invalidate answer s).window.widgets.length = s.window.widgets.length := by
  cases answer
  · simp [window_title_menu_invalidate]
  · simp only [window_title_menu_invalidate, if_true]
    exact setType_length _ _ _

theorem bannerPresent_invalidate (answer : Bool) (s : TitleMenuState)
    (hbanner : WIDX_NEW_VERSION < s.window.widgets.length) :
    bannerPresent (window_title_menu_invalidate answer s) = (bannerPresent s || answer) := by
  cases answer
  · simp [window_title_menu_invalidate, bannerPresent]
  · have htype := widgetAt_setType_type s.window.widgets WIDX_NEW_VERSION .Button hbanner
    simp only [window_title_menu_invalidate, if_true, bannerPresent, htype,
      WidgetIsEnabled_eq_testBit, Nat.testBit_or, Nat.one_shiftLeft, Nat.testBit_two_pow]
    simp

theorem bannerPresent_invalidations (answers : List Bool) (s : TitleMenuState)
    (hbanner : WIDX_NEW_VERSION < s.window.widgets.length) :
    bannerPresent (invalidations answers s) = (bannerPresent s || answers.any id) := by
  induction answers generalizing s with
  | nil => simp [invalidations]
  | cons answer later ih =>
    have hlen : WIDX_NEW_VERSION < (window_title_menu_invalidate answer s).window.widgets.length := by
      rw [invalidate_widgets_length]
      exact hbanner
    have := ih (window_title_menu_invalidate answer s) hlen
    simp only [invalidations, List.foldl_cons] at this ⊢
    rw [this, bannerPresent_invalidate answer s hbanner]
    simp [Bool.or_assoc]

theorem constructed_banner (newGame continueGame multiplayer gameTools : Bool) (W H : Int) :
    bannerPresent (constructed newGame continueGame multiplayer gameTools W H) = false
      ∧ WIDX_NEW_VERSION
          < (constructed newGame continueGame multiplayer gameTools W H).window.widgets.length := by
  simp only [bannerPresent, constructed, openWithSlots, open_widgets, open_enabled]
  cases newGame <;> cases continueGame <;> cases multiplayer <;> cases gameTools <;> decide

theorem staysPresent_snoc (earlier : List Bool) (latest : Bool)
    (hstay : staysPresent (earlier ++ [latest]) = true) (hsome : earlier.any id = true) :
    latest = true := by
  induction earlier with
  | nil => simp at hsome
  | cons answer later ih =>
    cases answer
    · simp only [List.cons_append, staysPresent, Bool.false_eq_true, if_false] at hstay
      simp only [List.any_cons, id_eq, Bool.false_or] at hsome
      exact ih hstay hsome
    · have hall : (later ++ [latest]).all id = true := by
        simpa only [List.cons_append, staysPresent, if_true] using hstay
      rw [List.all_append, Bool.and_eq_true] at hall
      have hlast := hall.2
      simpa only [List.all_cons, List.all_nil, Bool.and_true, id_eq] using hlast

/-- C8 as stated fails: after an invalidation with update information present
followed by one with it absent, the banner slot is still present (an enabled
`Button`) while filter-rect starts 28 pixels below the window's top edge. -/
theorem banner_present_but_filter_rect_short :
    bannerPresent (invalidations [true, false] (constructed true true true true 1920 1080)) = true
      ∧ (invalidations [true, false] (constructed true true true true 1920 1080))._filterRect.Point1.y
          = (invalidations [true, false]
              (constructed true true true true 1920 1080)).window.windowPos.y + 28
      ∧ (invalidations [true, false] (constructed true true true true 1920 1080))._filterRect.Point1.y
          ≠ (invalidations [true, false]
              (constructed true true true true 1920 1080)).window.windowPos.y := by
  decide

/-- C8, amended. In every state reached from construction by a non-empty
sequence of invalidations, filter-rect's top is window-y exactly when update
information was present at the latest invalidation and window-y + 28 exactly
when it was absent there, and the banner slot is present exactly when update
information was present at some invalidation of the sequence. Hence, for
sequences in which update information stays present once it has been reported,
filter-rect's top is window-y exactly when the banner slot is present and
window-y + 28 exactly when it is hidden. -/
theorem filter_rect_top_after_invalidations
    (newGame continueGame multiplayer gameTools : Bool) (W H : Int)
    (earlier : List Bool) (latest : Bool) :
    ((invalidations (earlier ++ [latest])
          (constructed newGame continueGame multiplayer gameTools W H))._filterRect.Point1.y
        = (invalidations (earlier ++ [latest])
            (constructed newGame continueGame multiplayer gameTools W H)).window.windowPos.y
        ↔ latest = true)
      ∧ ((invalidations (earlier ++ [latest])
            (constructed newGame continueGame multiplayer gameTools W H))._filterRect.Point1.y
          = (invalidations (earlier ++ [latest])
              (constructed newGame continueGame multiplayer gameTools W H)).window.windowPos.y + 28
          ↔ latest = false)
      ∧ (bannerPresent (invalidations (earlier ++ [latest])
            (constructed newGame continueGame multiplayer gameTools W H)) = true
          ↔ true ∈ earlier ++ [latest])
      ∧ (staysPresent (earlier ++ [latest]) = true →
          (((invalidations (earlier ++ [latest])
                (constructed newGame continueGame multiplayer gameTools W H))._filterRect.Point1.y
              = (invalidations (earlier ++ [latest])
                  (constructed newGame continueGame multiplayer gameTools W H)).window.windowPos.y
              ↔ bannerPresent (invalidations (earlier ++ [latest])
                  (constructed newGame continueGame multiplayer gameTools W H)) = true)
            ∧ ((invalidations (earlier ++ [latest])
                  (constructed newGame continueGame multiplayer gameTools W H))._filterRect.Point1.y
                = (invalidations (earlier ++ [latest])
                    (constructed newGame continueGame multiplayer gameTools W H)).window.windowPos.y
                  + 28
                ↔ bannerPresent (invalidations (earlier ++ [latest])
                    (constructed newGame continueGame multiplayer gameTools W H)) = false))) := by
  obtain ⟨hc0, hclen⟩ := constructed_banner newGame continueGame multiplayer gameTools W H
  have hbp := bannerPresent_invalidations (earlier ++ [latest])
    (constructed newGame continueGame multiplayer gameTools W H) hclen
  rw [hc0, Bool.false_or] at hbp
  have htop : ((invalidations (earlier ++ [latest])
          (constructed newGame continueGame multiplayer gameTools W H))._filterRect.Point1.y
        = (invalidations (earlier ++ [latest])
            (constructed newGame continueGame multiplayer gameTools W H)).window.windowPos.y
        ↔ latest = true) := by
    rw [invalidations_snoc]
    cases latest
    · simp only [window_title_menu_invalidate, UpdateButtonDims, Bool.false_eq_true, if_false,
        iff_false]
      omega
    · simp [window_title_menu_invalidate]
  have hlow : ((invalidations (earlier ++ [latest])
          (constructed newGame continueGame multiplayer gameTools W H))._filterRect.Point1.y
        = (invalidations (earlier ++ [latest])
            (constructed newGame continueGame multiplayer gameTools W H)).window.windowPos.y + 28
        ↔ latest = false) := by
    rw [invalidations_snoc]
    cases latest
    · simp [window_title_menu_invalidate, UpdateButtonDims]
    · simp only [window_title_menu_invalidate, if_true, Bool.true_eq_false, iff_false]
      omega
  have hmem : (bannerPresent (invalidations (earlier ++ [latest])
        (constructed newGame continueGame multiplayer gameTools W H)) = true
      ↔ true ∈ earlier ++ [latest]) := by
    rw [hbp]
    simp [List.any_eq_true]
  refine ⟨htop, hlow, hmem, ?_⟩
  intro hstay
  have hlatest : bannerPresent (invalidations (earlier ++ [latest])
        (constructed newGame continueGame multiplayer gameTools W H)) = latest := by
    rw [hbp]
    cases hl : latest
    · cases he : earlier.any id
      · simp [he]
      · have := staysPresent_snoc earlier latest hstay he
        rw [hl] at this
        exact absurd this (by decide)
    · simp
  rw [hlatest]
  exact ⟨htop, hlow⟩

/-- Witness for C8 (amended): update information absent at the first
invalidation and present at the next two. -/
theorem filter_rect_top_after_invalidations_witness :
    staysPresent ([false, true] ++ [true]) = true
      ∧ ((invalidations ([false, true] ++ [true])
            (constructed true true true true 1920 1080))._filterRect.Point1.y
          = (invalidations ([false, true] ++ [true])
              (constructed true true true true 1920 1080)).window.windowPos.y
          ↔ bannerPresent (invalidations ([false, true] ++ [true])
              (constructed true true true true 1920 1080)) = true) :=
  ⟨by decide,
   ((filter_rect_top_after_invalidations true true true true 1920 1080 [false, true] true).2.2.2
      (by decide)).1⟩

end TitleMenu
